import Mathlib

/-!
# Shallow embedding of `voxler/voxels.py`

The module under verification is a thin wrapper around the Fusion 360 host
API.  We model the relevant slice of the host as an explicit state
(`HostState`): the active design's modeling mode, its table of solid bodies
(keyed by an abstract handle), its document-scoped appearance table, and a
fresh-handle counter.  A `DirectVoxel` record mirrors the Python instance
attributes (`_component`, `_center`, `_side_length`, `_color`,
`_appearance`, `_name`, `_body`), with the per-class `shape` tag stored as a
field since Lean has no inheritance.  Python exceptions are modeled with
`Except String`; every operation threads the host state explicitly.
Side lengths and coordinates are modeled as rationals (the code only
compares them and halves the side length for the sphere radius).
-/

/-- An (r, g, b, o) color tuple as passed to the `color` attribute. -/
structure Color where
  r : Nat
  g : Nat
  b : Nat
  o : Nat
deriving DecidableEq

/-- A 3D point (x, y, z) in Fusion units, as passed to `Point3D.create`. -/
abbrev Point3 : Type := ℚ × ℚ × ℚ

/-- The slice of `adsk.fusion.Component` the code reads: its `id` (used by the
`component` setter to compare components) and its `name` (used by
`serialize`). -/
structure Component where
  id : String
  name : String
deriving DecidableEq

/-- `adsk.fusion.DesignTypes`: history-based (parametric) or direct mode. -/
inductive DesignType
  | parametric
  | direct
deriving DecidableEq

/-- A reference to a host appearance object: either a base appearance of the
fixed "Fusion 360 Appearance Library" (identified by its appearance id), or a
derived appearance living in the active design's appearance table
(identified by its handle). -/
inductive AppearanceRef
  | base (id : String)
  | derived (handle : Nat)
deriving DecidableEq

/-- An appearance object in the active design's appearance table
(`design.appearances`), as created by `addByCopy` plus the albedo
assignment. -/
structure DesignAppearance where
  handle : Nat
  name : String
  albedo : Option Color
  copiedFrom : String
deriving DecidableEq

/-- The geometry request issued to the host's `TemporaryBRepManager`:
`createBox` takes an `OrientedBoundingBox3D` (center point, length
direction, width direction, length, width, height); `createSphere` takes a
center point and a radius. -/
inductive Geometry
  | box (center : Point3) (lengthDir widthDir : Point3) (length width height : ℚ)
  | sphere (center : Point3) (radius : ℚ)
deriving DecidableEq

/-- The slice of `adsk.fusion.BRepBody` the code touches: the owning
component, the geometry it was created with, and its mutable `appearance`
and `name` properties. -/
structure BodyData where
  componentId : String
  geometry : Geometry
  appearance : AppearanceRef
  name : String
deriving DecidableEq

/-- The host state: the active design's mode, its live bodies (handle keyed),
its document appearance table, and a counter supplying fresh handles. -/
structure HostState where
  designType : DesignType
  bodies : List (Nat × BodyData)
  appearances : List DesignAppearance
  nextId : Nat
deriving DecidableEq

/-- Look a body up by handle. -/
def HostState.findBody (st : HostState) (h : Nat) : Option BodyData :=
  (st.bodies.find? (fun p => p.1 == h)).map Prod.snd

/-- `component.bRepBodies.add`: insert a body under a fresh handle.  The
returned handle is the new body. -/
def HostState.addBody (st : HostState) (d : BodyData) : HostState × Nat :=
  ({ st with bodies := st.bodies ++ [(st.nextId, d)], nextId := st.nextId + 1 },
   st.nextId)

/-- `body.deleteMe()`: remove the body with the given handle. -/
def HostState.removeBody (st : HostState) (h : Nat) : HostState :=
  { st with bodies := st.bodies.filter (fun p => p.1 != h) }

/-- Assignment to a property of the body with the given handle. -/
def HostState.updateBody (st : HostState) (h : Nat) (f : BodyData → BodyData) :
    HostState :=
  { st with bodies := st.bodies.map (fun p => if p.1 == h then (p.1, f p.2) else p) }

/-- Well-formedness of the host state: every allocated handle is below the
fresh-handle counter. -/
def HostState.WF (st : HostState) : Prop :=
  (∀ p ∈ st.bodies, p.1 < st.nextId) ∧ ∀ a ∈ st.appearances, a.handle < st.nextId

instance (st : HostState) : Decidable st.WF := by
  unfold HostState.WF; infer_instance

/-- The per-class shape tag (`DirectCube` vs `DirectSphere`). -/
inductive Shape
  | cube
  | sphere
deriving DecidableEq

/-- The string returned by the `shape` property of each concrete class. -/
def Shape.toString : Shape → String
  | .cube => "cube"
  | .sphere => "sphere"

/-- A `DirectVoxel` instance: the stored attributes of the Python object.
`body` is `none` exactly when `self._body` is `None` (after `delete`). -/
structure DirectVoxel where
  component : Component
  center : Point3
  side_length : ℚ
  color : Option Color
  appearance : String
  name : String
  shape : Shape
  body : Option Nat
deriving DecidableEq

/-- The `shape` property of a voxel, as a string ("cube" or "sphere"). -/
def DirectVoxel.shapeString (v : DirectVoxel) : String :=
  Shape.toString v.shape

/-- The name given to the derived colored appearance:
`f"{self._appearance}__custom_r{r}g{g}b{b}o{o}"`. -/
def coloredAppearanceName (appearanceId : String) (c : Color) : String :=
  appearanceId ++ "__custom_r" ++ Nat.repr c.r ++ "g" ++ Nat.repr c.g ++
    "b" ++ Nat.repr c.b ++ "o" ++ Nat.repr c.o

/-- `Voxel._get_appearance`: with no color stored, return the material
library's base appearance for the stored appearance id; otherwise look the
derived colored appearance up by name in the design's appearance table and,
if absent, create it by copy from the base appearance and set its
`surface_albedo` to the stored color. -/
def Voxel.getAppearance (st : HostState) (v : DirectVoxel) :
    HostState × AppearanceRef :=
  match v.color with
  | none => (st, .base v.appearance)
  | some c =>
    let n := coloredAppearanceName v.appearance c
    match st.appearances.find? (fun a => a.name == n) with
    | some a => (st, .derived a.handle)
    | none =>
      let a : DesignAppearance :=
        { handle := st.nextId, name := n, albedo := some c,
          copiedFrom := v.appearance }
      ({ st with appearances := st.appearances ++ [a], nextId := st.nextId + 1 },
       .derived st.nextId)

/-- Shared tail of `DirectCube._create_body` and `DirectSphere._create_body`:
add the body built from the given geometry request to the voxel's component,
then assign its `appearance` from `_get_appearance()` and its `name` from
`self._name`, in that order. -/
def Voxel.createBodyWith (st : HostState) (v : DirectVoxel) (geom : Geometry) :
    HostState × Nat :=
  let p := st.addBody
    { componentId := v.component.id, geometry := geom,
      appearance := .base "", name := "" }
  let q := Voxel.getAppearance p.1 v
  let st2 := q.1.updateBody p.2 (fun b => { b with appearance := q.2 })
  let st3 := st2.updateBody p.2 (fun b => { b with name := v.name })
  (st3, p.2)

/-- `DirectCube._create_body`: an axis-aligned box (length direction
(1,0,0), width direction (0,1,0)) centered at the voxel's center with
length, width and height all equal to the side length. -/
def DirectCube.createBody (st : HostState) (v : DirectVoxel) : HostState × Nat :=
  Voxel.createBodyWith st v
    (.box v.center ((1 : ℚ), (0 : ℚ), (0 : ℚ)) ((0 : ℚ), (1 : ℚ), (0 : ℚ))
      v.side_length v.side_length v.side_length)

/-- `DirectSphere._create_body`: a sphere centered at the voxel's center
with radius half the side length. -/
def DirectSphere.createBody (st : HostState) (v : DirectVoxel) : HostState × Nat :=
  Voxel.createBodyWith st v (.sphere v.center (v.side_length / 2))

/-- Dynamic dispatch of `_create_body` on the concrete class of the voxel. -/
def DirectVoxel.createBody (st : HostState) (v : DirectVoxel) : HostState × Nat :=
  match v.shape with
  | .cube => DirectCube.createBody st v
  | .sphere => DirectSphere.createBody st v

/-- The attribute record stored by `Voxel.__init__` before the body is
created (`self._component = component`, ..., with `self._body` still unset). -/
def initVoxel (shape : Shape) (component : Component) (center : Point3)
    (side_length : ℚ) (color : Option Color) (appearance : String)
    (name : String) : DirectVoxel :=
  { component := component, center := center, side_length := side_length,
    color := color, appearance := appearance, name := name,
    shape := shape, body := none }

/-- The message of the `RuntimeError` raised by `DirectVoxel.__init__` in
parametric design mode. -/
def parametricError : String :=
  "A instance of a DirectVoxel can not be created in parameteric design environment."

/-- `DirectCube.__init__` / `DirectSphere.__init__` (via
`DirectVoxel.__init__` and `Voxel.__init__`): check the design mode first
and raise before anything else; otherwise store the attributes and create
the body.  On the error path the host state is returned untouched. -/
def DirectVoxel.create (st : HostState) (shape : Shape) (component : Component)
    (center : Point3) (side_length : ℚ) (color : Option Color)
    (appearance : String) (name : String) :
    HostState × Except String DirectVoxel :=
  if st.designType = DesignType.parametric then
    (st, .error parametricError)
  else
    let v0 := initVoxel shape component center side_length color appearance name
    let p := DirectVoxel.createBody st v0
    (p.1, .ok { v0 with body := some p.2 })

/-- `Voxel.delete`: `self._body.deleteMe()` then `self._body = None`.  On a
voxel whose body reference is already cleared the attribute access on `None`
raises. -/
def Voxel.delete (st : HostState) (v : DirectVoxel) :
    Except String (HostState × DirectVoxel) :=
  match v.body with
  | none => .error "AttributeError: NoneType object has no attribute deleteMe"
  | some h => .ok (st.removeBody h, { v with body := none })

/-- `Voxel.recreate_body`: `self.delete()` then rebuild the body from the
current attributes and store the new handle. -/
def Voxel.recreateBody (st : HostState) (v : DirectVoxel) :
    Except String (HostState × DirectVoxel) := do
  let p ← Voxel.delete st v
  let q := DirectVoxel.createBody p.1 p.2
  .ok (q.1, { p.2 with body := some q.2 })

/-- The `name` setter of `DirectVoxel`: on a changed value store it and push
it onto the body's `name` property. -/
def DirectVoxel.setName (st : HostState) (v : DirectVoxel) (newName : String) :
    Except String (HostState × DirectVoxel) :=
  if v.name ≠ newName then
    match v.body with
    | none => .error "AttributeError: NoneType object has no attribute name"
    | some h =>
      .ok (st.updateBody h (fun b => { b with name := newName }),
        { v with name := newName })
  else .ok (st, v)

/-- The `color` setter of `DirectVoxel`: on a changed value store it and
assign `self._body.appearance = self._get_appearance()`. -/
def DirectVoxel.setColor (st : HostState) (v : DirectVoxel)
    (newColor : Option Color) : Except String (HostState × DirectVoxel) :=
  if v.color ≠ newColor then
    match v.body with
    | none => .error "AttributeError: NoneType object has no attribute appearance"
    | some h =>
      let v1 := { v with color := newColor }
      let q := Voxel.getAppearance st v1
      .ok (q.1.updateBody h (fun b => { b with appearance := q.2 }), v1)
  else .ok (st, v)

/-- The `appearance` setter of `DirectVoxel`: on a changed value store it and
assign `self._body.appearance = self._get_appearance()`. -/
def DirectVoxel.setAppearance (st : HostState) (v : DirectVoxel)
    (newAppearance : String) : Except String (HostState × DirectVoxel) :=
  if newAppearance ≠ v.appearance then
    match v.body with
    | none => .error "AttributeError: NoneType object has no attribute appearance"
    | some h =>
      let v1 := { v with appearance := newAppearance }
      let q := Voxel.getAppearance st v1
      .ok (q.1.updateBody h (fun b => { b with appearance := q.2 }), v1)
  else .ok (st, v)

/-- The `component` setter of `DirectVoxel`: components are compared by
their `id`; on a change store the new component and `recreate_body`. -/
def DirectVoxel.setComponent (st : HostState) (v : DirectVoxel)
    (newComponent : Component) : Except String (HostState × DirectVoxel) :=
  if newComponent.id ≠ v.component.id then
    Voxel.recreateBody st { v with component := newComponent }
  else .ok (st, v)

/-- The `center` setter of `DirectVoxel`: on a changed value store it and
`recreate_body`. -/
def DirectVoxel.setCenter (st : HostState) (v : DirectVoxel)
    (newCenter : Point3) : Except String (HostState × DirectVoxel) :=
  if v.center ≠ newCenter then
    Voxel.recreateBody st { v with center := newCenter }
  else .ok (st, v)

/-- The `side_length` setter of `DirectVoxel`: on a changed value store it
and `recreate_body`. -/
def DirectVoxel.setSideLength (st : HostState) (v : DirectVoxel)
    (newSideLength : ℚ) : Except String (HostState × DirectVoxel) :=
  if newSideLength ≠ v.side_length then
    Voxel.recreateBody st { v with side_length := newSideLength }
  else .ok (st, v)

/-- A value in the serialized dictionary. -/
inductive SValue
  | str (s : String)
  | point (p : Point3)
  | num (q : ℚ)
  | colorOpt (c : Option Color)
deriving DecidableEq

/-- `Voxel.serialize`: the flat dict of the six base attributes, with the
component's name under `component_name` and the shape string under
`shape`. -/
def Voxel.serializeBase (v : DirectVoxel) : List (String × SValue) :=
  [("component_name", .str v.component.name),
   ("center", .point v.center),
   ("side_length", .num v.side_length),
   ("color", .colorOpt v.color),
   ("appearance", .str v.appearance),
   ("shape", .str v.shapeString)]

/-- `DirectVoxel.serialize`: the base dict merged with the `name` entry
(`{**super().serialize(), "name": self.name}`). -/
def DirectVoxel.serialize (v : DirectVoxel) : List (String × SValue) :=
  Voxel.serializeBase v ++ [("name", .str v.name)]

/-- One mutating property assignment on a live `DirectVoxel`. -/
inductive Mutation
  | mName (s : String)
  | mColor (c : Option Color)
  | mAppearance (s : String)
  | mCenter (p : Point3)
  | mSideLength (q : ℚ)
  | mComponent (c : Component)

/-- Dispatch one property assignment to its setter. -/
def applyMutation (st : HostState) (v : DirectVoxel) :
    Mutation → Except String (HostState × DirectVoxel)
  | .mName s => DirectVoxel.setName st v s
  | .mColor c => DirectVoxel.setColor st v c
  | .mAppearance s => DirectVoxel.setAppearance st v s
  | .mCenter p => DirectVoxel.setCenter st v p
  | .mSideLength q => DirectVoxel.setSideLength st v q
  | .mComponent c => DirectVoxel.setComponent st v c

/-- Apply a sequence of property assignments, stopping at the first raised
exception. -/
def applyMutations (st : HostState) (v : DirectVoxel) :
    List Mutation → Except String (HostState × DirectVoxel)
  | [] => .ok (st, v)
  | m :: ms =>
    match applyMutation st v m with
    | .error e => .error e
    | .ok p => applyMutations p.1 p.2 ms

/-! ## Helper lemmas about the host-state operations -/

/-- `findBody` only reads the body table. -/
theorem HostState.findBody_congr {st st' : HostState} (h : Nat)
    (hb : st.bodies = st'.bodies) : st.findBody h = st'.findBody h := by
  unfold HostState.findBody
  rw [hb]

/-- After `removeBody h` the handle `h` no longer resolves. -/
theorem HostState.findBody_removeBody_self (st : HostState) (h : Nat) :
    (st.removeBody h).findBody h = none := by
  have hnone : (st.bodies.filter (fun p => p.1 != h)).find? (fun p => p.1 == h)
      = none := by
    rw [List.find?_eq_none]
    intro x hx
    have hne := (List.mem_filter.mp hx).2
    simp only [bne_iff_ne, ne_eq, decide_eq_true_eq] at hne
    simp [hne]
  simp [HostState.removeBody, HostState.findBody, hnone]

theorem find?_update (l : List (Nat × BodyData)) (h h' : Nat)
    (f : BodyData → BodyData) :
    ((l.map (fun p => if p.1 == h' then (p.1, f p.2) else p)).find?
        (fun p => p.1 == h))
      = (l.find? (fun p => p.1 == h)).map
          (fun p => if p.1 == h' then (p.1, f p.2) else p) := by
  have hq : ((fun p : Nat × BodyData => p.1 == h) ∘
      fun p : Nat × BodyData => if p.1 == h' then (p.1, f p.2) else p)
        = fun p : Nat × BodyData => p.1 == h := by
    funext p
    by_cases hp : p.1 = h' <;> simp [Function.comp, hp]
  rw [List.find?_map, hq]

/-- Updating a body's property is visible through `findBody`. -/
theorem HostState.findBody_updateBody_self (st : HostState) (h : Nat)
    (f : BodyData → BodyData) :
    (st.updateBody h f).findBody h = (st.findBody h).map f := by
  unfold HostState.findBody HostState.updateBody
  rw [find?_update]
  cases hfind : st.bodies.find? (fun p => p.1 == h) with
  | none => rfl
  | some p =>
    have hp := List.find?_some hfind
    have hp1 : p.1 = h := by simpa using hp
    simp [hp1]

/-- Updating a body leaves the other handles unchanged. -/
theorem HostState.findBody_updateBody_ne (st : HostState) (h h' : Nat)
    (hne : h ≠ h') (f : BodyData → BodyData) :
    (st.updateBody h' f).findBody h = st.findBody h := by
  unfold HostState.findBody HostState.updateBody
  rw [find?_update]
  cases hfind : st.bodies.find? (fun p => p.1 == h) with
  | none => rfl
  | some p =>
    have hp := List.find?_some hfind
    have hp1 : p.1 = h := by simpa using hp
    have hp' : ¬ p.1 = h' := by
      rw [hp1]; exact hne
    simp [hp']

/-- A freshly added body resolves to its data, provided the fresh handle is
not already allocated. -/
theorem HostState.findBody_addBody_new (st : HostState) (d : BodyData)
    (hw : ∀ p ∈ st.bodies, p.1 ≠ st.nextId) :
    (st.addBody d).1.findBody st.nextId = some d := by
  unfold HostState.addBody HostState.findBody
  have hnone : st.bodies.find? (fun p => p.1 == st.nextId) = none := by
    rw [List.find?_eq_none]
    intro x hx
    simpa using hw x hx
  simp [List.find?_append, hnone]

/-- Adding a body leaves the other handles unchanged. -/
theorem HostState.findBody_addBody_ne (st : HostState) (d : BodyData) (h : Nat)
    (hne : h ≠ st.nextId) :
    (st.addBody d).1.findBody h = st.findBody h := by
  unfold HostState.addBody HostState.findBody
  have h2 : ¬ st.nextId = h := fun hcon => hne hcon.symm
  have hsingle : ([(st.nextId, d)] : List (Nat × BodyData)).find?
      (fun p => p.1 == h) = none := by
    simp [List.find?_cons, h2]
  simp [List.find?_append, hsingle]

/-- `_get_appearance` never touches the body table. -/
theorem getAppearance_bodies (st : HostState) (v : DirectVoxel) :
    (Voxel.getAppearance st v).1.bodies = st.bodies := by
  unfold Voxel.getAppearance
  cases v.color with
  | none => rfl
  | some c =>
    cases hfind : st.appearances.find?
        (fun a => a.name == coloredAppearanceName v.appearance c) with
    | some a => simp [hfind]
    | none => simp [hfind]

/-- `ref` is the resolution, against the appearance table `tbl`, of the
stored (appearance id, color) pair: with no color it is the library's base
appearance for that id, with a color it is a derived appearance of the table
carrying the deterministic colored name. -/
def AppearanceRef.resolves (tbl : List DesignAppearance) (ref : AppearanceRef)
    (appearanceId : String) (color : Option Color) : Prop :=
  match color with
  | none => ref = .base appearanceId
  | some c => ∃ a ∈ tbl, ref = .derived a.handle ∧
      a.name = coloredAppearanceName appearanceId c

instance (tbl : List DesignAppearance) (ref : AppearanceRef)
    (appearanceId : String) (color : Option Color) :
    Decidable (AppearanceRef.resolves tbl ref appearanceId color) := by
  unfold AppearanceRef.resolves
  cases color <;> infer_instance

/-- The reference returned by `_get_appearance` resolves, against the
resulting appearance table, to the stored (appearance id, color) pair. -/
theorem getAppearance_resolves (st : HostState) (v : DirectVoxel) :
    AppearanceRef.resolves (Voxel.getAppearance st v).1.appearances
      (Voxel.getAppearance st v).2 v.appearance v.color := by
  unfold Voxel.getAppearance AppearanceRef.resolves
  cases v.color with
  | none => simp
  | some c =>
    cases hfind : st.appearances.find?
        (fun a => a.name == coloredAppearanceName v.appearance c) with
    | some a =>
      have hname := List.find?_some hfind
      have hmem := List.mem_of_find?_eq_some hfind
      simp only [hfind]
      exact ⟨a, hmem, rfl, by simpa using hname⟩
    | none =>
      simp only [hfind]
      refine ⟨⟨st.nextId, coloredAppearanceName v.appearance c, some c,
        v.appearance⟩, ?_, rfl, rfl⟩
      simp

/-- The geometry request `_create_body` issues for each concrete shape. -/
def DirectVoxel.requestedGeometry (v : DirectVoxel) : Geometry :=
  match v.shape with
  | .cube => .box v.center ((1 : ℚ), (0 : ℚ), (0 : ℚ)) ((0 : ℚ), (1 : ℚ), (0 : ℚ))
      v.side_length v.side_length v.side_length
  | .sphere => .sphere v.center (v.side_length / 2)

theorem createBody_eq (st : HostState) (v : DirectVoxel) :
    DirectVoxel.createBody st v = Voxel.createBodyWith st v v.requestedGeometry := by
  cases hs : v.shape <;>
    simp [DirectVoxel.createBody, DirectCube.createBody, DirectSphere.createBody,
      DirectVoxel.requestedGeometry, hs]

/-- Net effect of `_create_body`: the returned handle is the fresh one, the
body stored under it carries the requested geometry, the voxel's display
name, and an appearance resolving the stored (appearance id, color) pair;
every other handle is untouched. -/
theorem createBodyWith_spec (st : HostState) (v : DirectVoxel) (geom : Geometry)
    (hw : ∀ p ∈ st.bodies, p.1 ≠ st.nextId) :
    (Voxel.createBodyWith st v geom).2 = st.nextId ∧
    (∃ app, (Voxel.createBodyWith st v geom).1.findBody st.nextId =
        some { componentId := v.component.id, geometry := geom,
               appearance := app, name := v.name } ∧
        AppearanceRef.resolves (Voxel.createBodyWith st v geom).1.appearances app
          v.appearance v.color) ∧
    ∀ h, h ≠ st.nextId →
      (Voxel.createBodyWith st v geom).1.findBody h = st.findBody h := by
  refine ⟨rfl, ?_, ?_⟩
  · refine ⟨(Voxel.getAppearance (st.addBody
      { componentId := v.component.id, geometry := geom,
        appearance := .base "", name := "" }).1 v).2, ?_, ?_⟩
    · show (((Voxel.getAppearance (st.addBody
          { componentId := v.component.id, geometry := geom,
            appearance := .base "", name := "" }).1 v).1.updateBody st.nextId
            _).updateBody st.nextId _).findBody st.nextId = _
      rw [HostState.findBody_updateBody_self, HostState.findBody_updateBody_self]
      rw [HostState.findBody_congr st.nextId (getAppearance_bodies _ v)]
      rw [HostState.findBody_addBody_new st _ hw]
      rfl
    · exact getAppearance_resolves _ v
  · intro h hne
    show (((Voxel.getAppearance (st.addBody
        { componentId := v.component.id, geometry := geom,
          appearance := .base "", name := "" }).1 v).1.updateBody st.nextId
          _).updateBody st.nextId _).findBody h = _
    rw [HostState.findBody_updateBody_ne _ _ _ hne,
      HostState.findBody_updateBody_ne _ _ _ hne]
    rw [HostState.findBody_congr h (getAppearance_bodies _ v)]
    exact HostState.findBody_addBody_ne st _ h hne

/-- The state and voxel obtained by rebuilding the body of a voxel whose
live handle is `h`: the old body is removed, a body is rebuilt from the
current attributes, and the new handle is stored. -/
def rebuildAt (st : HostState) (v : DirectVoxel) (h : Nat) :
    HostState × DirectVoxel :=
  let p := DirectVoxel.createBody (st.removeBody h) { v with body := none }
  (p.1, { v with body := some p.2 })

/-- Running `recreate_body` on a live voxel rebuilds its body. -/
theorem recreateBody_run (st : HostState) (v : DirectVoxel) (h : Nat)
    (hb : v.body = some h) :
    Voxel.recreateBody st v = .ok (rebuildAt st v h) := by
  unfold Voxel.recreateBody Voxel.delete rebuildAt
  rw [hb]
  rfl

/-- `recreate_body` on a voxel whose body reference is already cleared
raises (the delete step accesses the cleared reference). -/
theorem recreateBody_dead (st : HostState) (v : DirectVoxel)
    (hb : v.body = none) :
    Voxel.recreateBody st v =
      .error "AttributeError: NoneType object has no attribute deleteMe" := by
  unfold Voxel.recreateBody Voxel.delete
  rw [hb]
  rfl

/-- A successful `recreate_body` preserves the shape tag. -/
theorem recreateBody_shape (st : HostState) (w : DirectVoxel) (st' : HostState)
    (v' : DirectVoxel) (hm : Voxel.recreateBody st w = .ok (st', v')) :
    v'.shape = w.shape := by
  cases hb : w.body with
  | none =>
    rw [recreateBody_dead st w hb] at hm
    simp at hm
  | some h =>
    rw [recreateBody_run st w h hb, Except.ok.injEq] at hm
    have h3 := congrArg (fun p : HostState × DirectVoxel => p.2.shape) hm
    exact h3.symm

theorem setName_shape (st : HostState) (v : DirectVoxel) (s : String)
    (st' : HostState) (v' : DirectVoxel)
    (hm : DirectVoxel.setName st v s = .ok (st', v')) : v'.shape = v.shape := by
  unfold DirectVoxel.setName at hm
  by_cases hne : v.name ≠ s
  · rw [if_pos hne] at hm
    split at hm
    · simp at hm
    · simp only [Except.ok.injEq, Prod.mk.injEq] at hm
      rw [← hm.2]
  · rw [if_neg hne] at hm
    simp only [Except.ok.injEq, Prod.mk.injEq] at hm
    rw [← hm.2]

theorem setColor_shape (st : HostState) (v : DirectVoxel) (c : Option Color)
    (st' : HostState) (v' : DirectVoxel)
    (hm : DirectVoxel.setColor st v c = .ok (st', v')) : v'.shape = v.shape := by
  unfold DirectVoxel.setColor at hm
  by_cases hne : v.color ≠ c
  · rw [if_pos hne] at hm
    split at hm
    · simp at hm
    · simp only [Except.ok.injEq, Prod.mk.injEq] at hm
      rw [← hm.2]
  · rw [if_neg hne] at hm
    simp only [Except.ok.injEq, Prod.mk.injEq] at hm
    rw [← hm.2]

theorem setAppearance_shape (st : HostState) (v : DirectVoxel) (s : String)
    (st' : HostState) (v' : DirectVoxel)
    (hm : DirectVoxel.setAppearance st v s = .ok (st', v')) :
    v'.shape = v.shape := by
  unfold DirectVoxel.setAppearance at hm
  by_cases hne : s ≠ v.appearance
  · rw [if_pos hne] at hm
    split at hm
    · simp at hm
    · simp only [Except.ok.injEq, Prod.mk.injEq] at hm
      rw [← hm.2]
  · rw [if_neg hne] at hm
    simp only [Except.ok.injEq, Prod.mk.injEq] at hm
    rw [← hm.2]

theorem setCenter_shape (st : HostState) (v : DirectVoxel) (p : Point3)
    (st' : HostState) (v' : DirectVoxel)
    (hm : DirectVoxel.setCenter st v p = .ok (st', v')) : v'.shape = v.shape := by
  by_cases hne : v.center ≠ p
  · unfold DirectVoxel.setCenter at hm
    rw [if_pos hne] at hm
    exact recreateBody_shape st { v with center := p } st' v' hm
  · unfold DirectVoxel.setCenter at hm
    rw [if_neg hne] at hm
    simp only [Except.ok.injEq, Prod.mk.injEq] at hm
    rw [← hm.2]

theorem setSideLength_shape (st : HostState) (v : DirectVoxel) (q : ℚ)
    (st' : HostState) (v' : DirectVoxel)
    (hm : DirectVoxel.setSideLength st v q = .ok (st', v')) :
    v'.shape = v.shape := by
  by_cases hne : q ≠ v.side_length
  · unfold DirectVoxel.setSideLength at hm
    rw [if_pos hne] at hm
    exact recreateBody_shape st { v with side_length := q } st' v' hm
  · unfold DirectVoxel.setSideLength at hm
    rw [if_neg hne] at hm
    simp only [Except.ok.injEq, Prod.mk.injEq] at hm
    rw [← hm.2]

theorem setComponent_shape (st : HostState) (v : DirectVoxel) (c : Component)
    (st' : HostState) (v' : DirectVoxel)
    (hm : DirectVoxel.setComponent st v c = .ok (st', v')) :
    v'.shape = v.shape := by
  by_cases hne : c.id ≠ v.component.id
  · unfold DirectVoxel.setComponent at hm
    rw [if_pos hne] at hm
    exact recreateBody_shape st { v with component := c } st' v' hm
  · unfold DirectVoxel.setComponent at hm
    rw [if_neg hne] at hm
    simp only [Except.ok.injEq, Prod.mk.injEq] at hm
    rw [← hm.2]

/-- Every single property assignment that succeeds preserves the shape tag. -/
theorem applyMutation_shape (st : HostState) (v : DirectVoxel) (m : Mutation)
    (st' : HostState) (v' : DirectVoxel)
    (hm : applyMutation st v m = .ok (st', v')) : v'.shape = v.shape := by
  cases m with
  | mName s => exact setName_shape st v s st' v' hm
  | mColor c => exact setColor_shape st v c st' v' hm
  | mAppearance s => exact setAppearance_shape st v s st' v' hm
  | mCenter p => exact setCenter_shape st v p st' v' hm
  | mSideLength q => exact setSideLength_shape st v q st' v' hm
  | mComponent c => exact setComponent_shape st v c st' v' hm

/-- A whole sequence of successful property assignments preserves the shape
tag. -/
theorem applyMutations_shape (ms : List Mutation) (st : HostState)
    (v : DirectVoxel) (st' : HostState) (v' : DirectVoxel)
    (hm : applyMutations st v ms = .ok (st', v')) : v'.shape = v.shape := by
  induction ms generalizing st v with
  | nil =>
    have hm2 : st = st' ∧ v = v' := by simpa [applyMutations] using hm
    rw [← hm2.2]
  | cons m ms ih =>
    simp only [applyMutations] at hm
    split at hm
    · simp at hm
    · rename_i p heq
      have hs := applyMutation_shape st v m p.1 p.2 (by rw [heq])
      exact (ih p.1 p.2 hm).trans hs

/-! ## Concrete sample data -/

def sampleComponent : Component := { id := "comp0", name := "Component0" }

/-- A second host object for the same component: same id, different display
name (host components are compared by id, not by object identity). -/
def sampleComponentAlias : Component := { id := "comp0", name := "Renamed" }

def sampleComponent2 : Component := { id := "comp1", name := "Component1" }

def sampleParametricState : HostState :=
  { designType := .parametric, bodies := [], appearances := [], nextId := 0 }

def sampleColor : Color := { r := 10, g := 20, b := 30, o := 255 }

def sampleBody : BodyData :=
  { componentId := "comp0",
    geometry := .box ((0 : ℚ), (0 : ℚ), (0 : ℚ)) ((1 : ℚ), (0 : ℚ), (0 : ℚ))
      ((0 : ℚ), (1 : ℚ), (0 : ℚ)) 2 2 2,
    appearance := .base "Prism-256", name := "Cube" }

def sampleLiveState : HostState :=
  { designType := .direct, bodies := [(0, sampleBody)], appearances := [],
    nextId := 1 }

def sampleVoxel : DirectVoxel :=
  { component := sampleComponent, center := ((0 : ℚ), (0 : ℚ), (0 : ℚ)),
    side_length := 2, color := none, appearance := "Prism-256",
    name := "Cube", shape := .cube, body := some 0 }

/-! ## The claims -/

/-- C1: `serialize()` returns a flat mapping whose entries are exactly the
stored attributes: the abstract `Voxel` layer contributes exactly the keys
component_name, center, side_length, color, appearance and shape with the
stored values, and `DirectVoxel` (hence `DirectCube`/`DirectSphere`)
additionally the key `name` with the stored display name. -/
theorem C1_serialize_exact (v : DirectVoxel) :
    (Voxel.serializeBase v).map Prod.fst =
      ["component_name", "center", "side_length", "color", "appearance",
        "shape"] ∧
    (DirectVoxel.serialize v).map Prod.fst =
      ["component_name", "center", "side_length", "color", "appearance",
        "shape", "name"] ∧
    (Voxel.serializeBase v).lookup "name" = none ∧
    (DirectVoxel.serialize v).lookup "component_name"
      = some (.str v.component.name) ∧
    (DirectVoxel.serialize v).lookup "center" = some (.point v.center) ∧
    (DirectVoxel.serialize v).lookup "side_length" = some (.num v.side_length) ∧
    (DirectVoxel.serialize v).lookup "color" = some (.colorOpt v.color) ∧
    (DirectVoxel.serialize v).lookup "appearance" = some (.str v.appearance) ∧
    (DirectVoxel.serialize v).lookup "shape" = some (.str v.shapeString) ∧
    (DirectVoxel.serialize v).lookup "name" = some (.str v.name) :=
  ⟨rfl, rfl, rfl, rfl, rfl, rfl, rfl, rfl, rfl, rfl⟩

/-- C2: constructing any concrete voxel (`DirectCube`/`DirectSphere`, via
`DirectVoxel.__init__`) while the active document is in history-based
(parametric) design mode raises the fatal `RuntimeError`, and the host state
is returned untouched: the error is signalled before any body-creation or
attribute-storing step runs. -/
theorem C2_parametric_rejected (st : HostState) (shape : Shape)
    (component : Component) (center : Point3) (side_length : ℚ)
    (color : Option Color) (appearance : String) (name : String)
    (hpara : st.designType = DesignType.parametric) :
    DirectVoxel.create st shape component center side_length color appearance
      name = (st, .error parametricError) := by
  unfold DirectVoxel.create
  rw [hpara]
  rfl

theorem C2_parametric_rejected_witness :
    DirectVoxel.create sampleParametricState Shape.cube sampleComponent
      ((0 : ℚ), (0 : ℚ), (0 : ℚ)) 2 none "Prism-256" "Cube"
      = (sampleParametricState, .error parametricError) :=
  C2_parametric_rejected sampleParametricState Shape.cube sampleComponent
    ((0 : ℚ), (0 : ℚ), (0 : ℚ)) 2 none "Prism-256" "Cube" rfl

/-- C7: on a live voxel `delete` removes the host body and clears the body
reference, and it is not idempotent: a second `delete` on the resulting dead
voxel raises, because the body reference is already cleared. -/
theorem C7_delete_clears (st : HostState) (v : DirectVoxel) (h : Nat)
    (hb : v.body = some h) :
    Voxel.delete st v = .ok (st.removeBody h, { v with body := none }) ∧
    (st.removeBody h).findBody h = none ∧
    ({ v with body := none } : DirectVoxel).body = none ∧
    Voxel.delete (st.removeBody h) { v with body := none } =
      .error "AttributeError: NoneType object has no attribute deleteMe" := by
  refine ⟨?_, HostState.findBody_removeBody_self st h, rfl, rfl⟩
  unfold Voxel.delete
  rw [hb]

theorem C7_delete_clears_witness :
    Voxel.delete sampleLiveState sampleVoxel =
      .ok (sampleLiveState.removeBody 0, { sampleVoxel with body := none }) ∧
    (sampleLiveState.removeBody 0).findBody 0 = none ∧
    ({ sampleVoxel with body := none } : DirectVoxel).body = none ∧
    Voxel.delete (sampleLiveState.removeBody 0) { sampleVoxel with body := none }
      = .error "AttributeError: NoneType object has no attribute deleteMe" :=
  C7_delete_clears sampleLiveState sampleVoxel 0 rfl

/-- C8: the `shape` property returns the constant string "cube" on every
`DirectCube` and "sphere" on every `DirectSphere`, regardless of any
sequence of mutations applied to the voxel's other attributes. -/
theorem C8_shape_constant (ms : List Mutation) (st : HostState)
    (v : DirectVoxel) (st' : HostState) (v' : DirectVoxel)
    (hm : applyMutations st v ms = .ok (st', v')) :
    v'.shapeString = v.shapeString ∧
    (v.shape = Shape.cube → v'.shapeString = "cube") ∧
    (v.shape = Shape.sphere → v'.shapeString = "sphere") := by
  have hs := applyMutations_shape ms st v st' v' hm
  refine ⟨by simp [DirectVoxel.shapeString, hs], fun hc => ?_, fun hc => ?_⟩ <;>
    simp [DirectVoxel.shapeString, hs, hc, Shape.toString]

def sampleRenamedBody : BodyData := { sampleBody with name := "Bob" }

def sampleRenamedState : HostState :=
  { sampleLiveState with bodies := [(0, sampleRenamedBody)] }

def sampleRenamedVoxel : DirectVoxel := { sampleVoxel with name := "Bob" }

theorem C8_shape_constant_witness :
    sampleRenamedVoxel.shapeString = sampleVoxel.shapeString ∧
    (sampleVoxel.shape = Shape.cube → sampleRenamedVoxel.shapeString = "cube") ∧
    (sampleVoxel.shape = Shape.sphere →
      sampleRenamedVoxel.shapeString = "sphere") :=
  C8_shape_constant [Mutation.mName "Bob"] sampleLiveState sampleVoxel
    sampleRenamedState sampleRenamedVoxel rfl

/-- C9: assigning any setter of a `DirectVoxel` a value equal to the current
stored value is a no-op: the host state (no host call) and the voxel (body
handle and all stored attributes) are returned unchanged; for `component`
the comparison is by the host component's id field, not object identity. -/
theorem C9_setters_noop (st : HostState) (v : DirectVoxel) :
    DirectVoxel.setName st v v.name = .ok (st, v) ∧
    DirectVoxel.setColor st v v.color = .ok (st, v) ∧
    DirectVoxel.setAppearance st v v.appearance = .ok (st, v) ∧
    DirectVoxel.setCenter st v v.center = .ok (st, v) ∧
    DirectVoxel.setSideLength st v v.side_length = .ok (st, v) ∧
    ∀ c : Component, c.id = v.component.id →
      DirectVoxel.setComponent st v c = .ok (st, v) := by
  refine ⟨?_, ?_, ?_, ?_, ?_, fun c hc => ?_⟩ <;>
    simp [DirectVoxel.setName, DirectVoxel.setColor, DirectVoxel.setAppearance,
      DirectVoxel.setCenter, DirectVoxel.setSideLength,
      DirectVoxel.setComponent, *]

theorem C9_setters_noop_witness :
    DirectVoxel.setName sampleLiveState sampleVoxel sampleVoxel.name
      = .ok (sampleLiveState, sampleVoxel) ∧
    DirectVoxel.setColor sampleLiveState sampleVoxel sampleVoxel.color
      = .ok (sampleLiveState, sampleVoxel) ∧
    DirectVoxel.setAppearance sampleLiveState sampleVoxel sampleVoxel.appearance
      = .ok (sampleLiveState, sampleVoxel) ∧
    DirectVoxel.setCenter sampleLiveState sampleVoxel sampleVoxel.center
      = .ok (sampleLiveState, sampleVoxel) ∧
    DirectVoxel.setSideLength sampleLiveState sampleVoxel
      sampleVoxel.side_length = .ok (sampleLiveState, sampleVoxel) ∧
    DirectVoxel.setComponent sampleLiveState sampleVoxel sampleComponentAlias
      = .ok (sampleLiveState, sampleVoxel) :=
  ⟨(C9_setters_noop sampleLiveState sampleVoxel).1,
   (C9_setters_noop sampleLiveState sampleVoxel).2.1,
   (C9_setters_noop sampleLiveState sampleVoxel).2.2.1,
   (C9_setters_noop sampleLiveState sampleVoxel).2.2.2.1,
   (C9_setters_noop sampleLiveState sampleVoxel).2.2.2.2.1,
   (C9_setters_noop sampleLiveState sampleVoxel).2.2.2.2.2
     sampleComponentAlias rfl⟩

/-- The document state after `addByCopy` has appended a derived appearance. -/
def appearanceAdded (st : HostState) (a : DesignAppearance) : HostState :=
  { st with appearances := st.appearances ++ [a], nextId := st.nextId + 1 }

/-- C3: appearance resolution.  (i) With no stored color, `_get_appearance`
returns the material library's base appearance for the stored appearance id
and leaves the document untouched.  (ii) With a stored color, when no
appearance of the deterministic colored name exists yet, exactly one derived
appearance is created, its name is built from the base appearance id and the
four color channel values, and its albedo is set to that color.  (iii) The
lookup-or-create is idempotent: a second call against the resulting state
with the same (appearance id, color tuple) pair returns the same appearance
reference and leaves the state unchanged. -/
theorem C3_get_appearance (st : HostState) (v : DirectVoxel) :
    (v.color = none → Voxel.getAppearance st v = (st, .base v.appearance)) ∧
    (∀ c : Color, v.color = some c →
      st.appearances.find?
        (fun a => a.name == coloredAppearanceName v.appearance c) = none →
      ∃ a : DesignAppearance,
        Voxel.getAppearance st v = (appearanceAdded st a, .derived a.handle) ∧
        a.name = coloredAppearanceName v.appearance c ∧
        a.albedo = some c) ∧
    (∀ (st1 : HostState) (ref : AppearanceRef) (w : DirectVoxel),
      Voxel.getAppearance st v = (st1, ref) →
      w.appearance = v.appearance → w.color = v.color →
      Voxel.getAppearance st1 w = (st1, ref)) := by
  refine ⟨?_, ?_, ?_⟩
  · intro hcn
    unfold Voxel.getAppearance
    rw [hcn]
  · intro c hcs hfind
    refine ⟨⟨st.nextId, coloredAppearanceName v.appearance c, some c,
      v.appearance⟩, ?_, rfl, rfl⟩
    unfold Voxel.getAppearance
    rw [hcs]
    simp only [hfind]
    rfl
  · intro st1 ref w heq hwa hwc
    cases hcv : v.color with
    | none =>
      have hres : Voxel.getAppearance st v = (st, .base v.appearance) := by
        unfold Voxel.getAppearance
        rw [hcv]
      rw [hres, Prod.mk.injEq] at heq
      obtain ⟨hst1, href⟩ := heq
      have hwn : w.color = none := hwc.trans hcv
      unfold Voxel.getAppearance
      rw [hwn, ← hst1, ← href, hwa]
    | some c =>
      have hwn : w.color = some c := hwc.trans hcv
      cases hfind : st.appearances.find?
          (fun a => a.name == coloredAppearanceName v.appearance c) with
      | some a =>
        have hres : Voxel.getAppearance st v = (st, .derived a.handle) := by
          unfold Voxel.getAppearance
          rw [hcv]
          simp only [hfind]
        rw [hres, Prod.mk.injEq] at heq
        obtain ⟨hst1, href⟩ := heq
        unfold Voxel.getAppearance
        rw [hwn, ← hst1, ← href, hwa]
        simp only [hfind]
      | none =>
        have hres : Voxel.getAppearance st v =
            (appearanceAdded st ⟨st.nextId, coloredAppearanceName v.appearance c,
              some c, v.appearance⟩, .derived st.nextId) := by
          unfold Voxel.getAppearance
          rw [hcv]
          simp only [hfind]
          rfl
        rw [hres, Prod.mk.injEq] at heq
        obtain ⟨hst1, href⟩ := heq
        unfold Voxel.getAppearance
        rw [hwn, ← hst1, ← href, hwa]
        have happ : (appearanceAdded st ⟨st.nextId,
            coloredAppearanceName v.appearance c, some c,
            v.appearance⟩).appearances.find?
              (fun a => a.name == coloredAppearanceName v.appearance c)
            = some ⟨st.nextId, coloredAppearanceName v.appearance c, some c,
                v.appearance⟩ := by
          unfold appearanceAdded
          rw [List.find?_append, hfind]
          simp
        simp only [happ]

def sampleColoredVoxel : DirectVoxel := { sampleVoxel with color := some sampleColor }

theorem C3_get_appearance_witness :
    Voxel.getAppearance sampleLiveState sampleVoxel =
      (sampleLiveState, .base sampleVoxel.appearance) ∧
    (∃ a : DesignAppearance,
      Voxel.getAppearance sampleLiveState sampleColoredVoxel =
        (appearanceAdded sampleLiveState a, .derived a.handle) ∧
      a.name = coloredAppearanceName sampleColoredVoxel.appearance sampleColor ∧
      a.albedo = some sampleColor) ∧
    Voxel.getAppearance (Voxel.getAppearance sampleLiveState sampleColoredVoxel).1
        sampleColoredVoxel =
      ((Voxel.getAppearance sampleLiveState sampleColoredVoxel).1,
        (Voxel.getAppearance sampleLiveState sampleColoredVoxel).2) :=
  ⟨(C3_get_appearance sampleLiveState sampleVoxel).1 rfl,
   (C3_get_appearance sampleLiveState sampleColoredVoxel).2.1 sampleColor rfl rfl,
   (C3_get_appearance sampleLiveState sampleColoredVoxel).2.2
     (Voxel.getAppearance sampleLiveState sampleColoredVoxel).1
     (Voxel.getAppearance sampleLiveState sampleColoredVoxel).2
     sampleColoredVoxel rfl rfl rfl⟩

/-- Successful construction stores the fresh handle in the voxel and the
requested geometry in the created body. -/
theorem create_ok_spec (st : HostState) (shape : Shape) (component : Component)
    (center : Point3) (side_length : ℚ) (color : Option Color)
    (appearance : String) (name : String) (st' : HostState) (v : DirectVoxel)
    (hw : ∀ p ∈ st.bodies, p.1 < st.nextId)
    (hok : DirectVoxel.create st shape component center side_length color
      appearance name = (st', .ok v)) :
    ∃ h d, v.body = some h ∧ st'.findBody h = some d ∧
      d.geometry = (initVoxel shape component center side_length color
        appearance name).requestedGeometry := by
  unfold DirectVoxel.create at hok
  split at hok
  · have h2 := congrArg Prod.snd hok
    simp at h2
  · simp only [Prod.mk.injEq, Except.ok.injEq] at hok
    obtain ⟨hst, hv⟩ := hok
    have hw' : ∀ p ∈ st.bodies, p.1 ≠ st.nextId :=
      fun p hp => Nat.ne_of_lt (hw p hp)
    obtain ⟨hhandle, ⟨app, hfind, hres⟩, hothers⟩ :=
      createBodyWith_spec st
        (initVoxel shape component center side_length color appearance name)
        (initVoxel shape component center side_length color appearance
          name).requestedGeometry hw'
    refine ⟨st.nextId, ⟨(initVoxel shape component center side_length color
        appearance name).component.id,
      (initVoxel shape component center side_length color
        appearance name).requestedGeometry, app,
      (initVoxel shape component center side_length color appearance
        name).name⟩, ?_, ?_, ?_⟩
    · rw [← hv, createBody_eq, hhandle]
    · rw [← hst, createBody_eq]
      exact hfind
    · rfl

/-- C4: `DirectCube` construction asks the host for an axis-aligned box
(length direction (1,0,0), width direction (0,1,0)) centered at the voxel's
center whose length, width and height all equal the side length;
`DirectSphere` construction asks for a sphere centered at the voxel's center
with radius `side_length / 2`. -/
theorem C4_construction_geometry (st : HostState) (component : Component)
    (center : Point3) (side_length : ℚ) (color : Option Color)
    (appearance : String) (name : String) (hw : st.WF) :
    (∀ (st' : HostState) (v : DirectVoxel),
      DirectVoxel.create st Shape.cube component center side_length color
        appearance name = (st', .ok v) →
      ∃ h d, v.body = some h ∧ st'.findBody h = some d ∧
        d.geometry = .box center ((1 : ℚ), (0 : ℚ), (0 : ℚ))
          ((0 : ℚ), (1 : ℚ), (0 : ℚ)) side_length side_length side_length) ∧
    (∀ (st' : HostState) (v : DirectVoxel),
      DirectVoxel.create st Shape.sphere component center side_length color
        appearance name = (st', .ok v) →
      ∃ h d, v.body = some h ∧ st'.findBody h = some d ∧
        d.geometry = .sphere center (side_length / 2)) := by
  constructor
  · intro st' v hok
    obtain ⟨h, d, h1, h2, h3⟩ := create_ok_spec st Shape.cube component center
      side_length color appearance name st' v hw.1 hok
    exact ⟨h, d, h1, h2, h3⟩
  · intro st' v hok
    obtain ⟨h, d, h1, h2, h3⟩ := create_ok_spec st Shape.sphere component center
      side_length color appearance name st' v hw.1 hok
    exact ⟨h, d, h1, h2, h3⟩

def sampleEmptyState : HostState :=
  { designType := .direct, bodies := [], appearances := [], nextId := 0 }

def sampleSphereBody : BodyData :=
  { componentId := "comp0",
    geometry := .sphere ((0 : ℚ), (0 : ℚ), (0 : ℚ)) ((2 : ℚ) / 2),
    appearance := .base "Prism-256", name := "Sphere" }

def sampleSphereState : HostState :=
  { designType := .direct, bodies := [(0, sampleSphereBody)],
    appearances := [], nextId := 1 }

def sampleSphereVoxel : DirectVoxel :=
  { component := sampleComponent, center := ((0 : ℚ), (0 : ℚ), (0 : ℚ)),
    side_length := 2, color := none, appearance := "Prism-256",
    name := "Sphere", shape := .sphere, body := some 0 }

theorem C4_construction_geometry_witness :
    (∃ h d, sampleVoxel.body = some h ∧ sampleLiveState.findBody h = some d ∧
      d.geometry = .box ((0 : ℚ), (0 : ℚ), (0 : ℚ)) ((1 : ℚ), (0 : ℚ), (0 : ℚ))
        ((0 : ℚ), (1 : ℚ), (0 : ℚ)) 2 2 2) ∧
    (∃ h d, sampleSphereVoxel.body = some h ∧
      sampleSphereState.findBody h = some d ∧
      d.geometry = .sphere ((0 : ℚ), (0 : ℚ), (0 : ℚ)) (2 / 2)) :=
  ⟨(C4_construction_geometry sampleEmptyState sampleComponent
      ((0 : ℚ), (0 : ℚ), (0 : ℚ)) 2 none "Prism-256" "Cube" (by decide)).1
      sampleLiveState sampleVoxel rfl,
   (C4_construction_geometry sampleEmptyState sampleComponent
      ((0 : ℚ), (0 : ℚ), (0 : ℚ)) 2 none "Prism-256" "Sphere" (by decide)).2
      sampleSphereState sampleSphereVoxel rfl⟩

/-- Assignment of the `appearance` property of a body
(`body.appearance = ...`). -/
def withAppearance (d : BodyData) (app : AppearanceRef) : BodyData :=
  { d with appearance := app }

/-- C5: assigning the `color` or `appearance` setter on a live voxel never
changes the identity of the stored body handle; when the value differs the
setter updates the existing body's cosmetic appearance in place (to the
appearance resolved from the updated attributes), and the voxel's body
reference afterwards is the same handle as before. -/
theorem C5_cosmetic_in_place (st : HostState) (v : DirectVoxel) (h : Nat)
    (d : BodyData) (newColor : Option Color) (newAppearance : String)
    (st1 : HostState) (v1 : DirectVoxel) (st2 : HostState) (v2 : DirectVoxel)
    (hb : v.body = some h) (hf : st.findBody h = some d)
    (hc : DirectVoxel.setColor st v newColor = .ok (st1, v1))
    (ha : DirectVoxel.setAppearance st v newAppearance = .ok (st2, v2)) :
    v1.body = some h ∧ v2.body = some h ∧
    (v.color ≠ newColor → st1.findBody h = some (withAppearance d
      (Voxel.getAppearance st { v with color := newColor }).2)) ∧
    (newAppearance ≠ v.appearance → st2.findBody h = some (withAppearance d
      (Voxel.getAppearance st { v with appearance := newAppearance }).2)) := by
  have hcolor : v1.body = some h ∧ (v.color ≠ newColor →
      st1.findBody h = some (withAppearance d
        (Voxel.getAppearance st { v with color := newColor }).2)) := by
    unfold DirectVoxel.setColor at hc
    by_cases hne : v.color ≠ newColor
    · rw [if_pos hne] at hc
      split at hc
      · rename_i heq
        rw [hb] at heq
        simp at heq
      · rename_i h' heq
        have hh : h = h' := by
          rw [hb] at heq
          exact Option.some.inj heq
        subst hh
        simp only [Except.ok.injEq, Prod.mk.injEq] at hc
        obtain ⟨hst1, hv1⟩ := hc
        constructor
        · rw [← hv1]
          exact hb
        · intro _
          rw [← hst1, HostState.findBody_updateBody_self,
            HostState.findBody_congr h (getAppearance_bodies st _), hf]
          rfl
    · rw [if_neg hne] at hc
      simp only [Except.ok.injEq, Prod.mk.injEq] at hc
      obtain ⟨hst1, hv1⟩ := hc
      exact ⟨hv1 ▸ hb, fun hcne => absurd hcne hne⟩
  have happ : v2.body = some h ∧ (newAppearance ≠ v.appearance →
      st2.findBody h = some (withAppearance d
        (Voxel.getAppearance st { v with appearance := newAppearance }).2)) := by
    unfold DirectVoxel.setAppearance at ha
    by_cases hne : newAppearance ≠ v.appearance
    · rw [if_pos hne] at ha
      split at ha
      · rename_i heq
        rw [hb] at heq
        simp at heq
      · rename_i h' heq
        have hh : h = h' := by
          rw [hb] at heq
          exact Option.some.inj heq
        subst hh
        simp only [Except.ok.injEq, Prod.mk.injEq] at ha
        obtain ⟨hst2, hv2⟩ := ha
        constructor
        · rw [← hv2]
          exact hb
        · intro _
          rw [← hst2, HostState.findBody_updateBody_self,
            HostState.findBody_congr h (getAppearance_bodies st _), hf]
          rfl
    · rw [if_neg hne] at ha
      simp only [Except.ok.injEq, Prod.mk.injEq] at ha
      obtain ⟨hst2, hv2⟩ := ha
      exact ⟨hv2 ▸ hb, fun hane => absurd hane hne⟩
  exact ⟨hcolor.1, happ.1, hcolor.2, happ.2⟩

def sampleColoredAppearance : DesignAppearance :=
  { handle := 1, name := coloredAppearanceName "Prism-256" sampleColor,
    albedo := some sampleColor, copiedFrom := "Prism-256" }

def sampleColoredBody : BodyData := { sampleBody with appearance := .derived 1 }

def sampleColoredState : HostState :=
  { designType := .direct, bodies := [(0, sampleColoredBody)],
    appearances := [sampleColoredAppearance], nextId := 2 }

def sampleReappVoxel : DirectVoxel :=
  { sampleVoxel with appearance := "Prism-100" }

def sampleReappBody : BodyData :=
  { sampleBody with appearance := .base "Prism-100" }

def sampleReappState : HostState :=
  { sampleLiveState with bodies := [(0, sampleReappBody)] }

theorem C5_cosmetic_in_place_witness :
    sampleColoredVoxel.body = some 0 ∧ sampleReappVoxel.body = some 0 ∧
    (sampleVoxel.color ≠ some sampleColor →
      sampleColoredState.findBody 0 = some (withAppearance sampleBody
        (Voxel.getAppearance sampleLiveState
          { sampleVoxel with color := some sampleColor }).2)) ∧
    (("Prism-100" : String) ≠ sampleVoxel.appearance →
      sampleReappState.findBody 0 = some (withAppearance sampleBody
        (Voxel.getAppearance sampleLiveState
          { sampleVoxel with appearance := "Prism-100" }).2)) :=
  C5_cosmetic_in_place sampleLiveState sampleVoxel 0 sampleBody
    (some sampleColor) "Prism-100" sampleColoredState sampleColoredVoxel
    sampleReappState sampleReappVoxel rfl rfl rfl rfl

/-- A handle that resolves in a well-formed state is below the fresh-handle
counter. -/
theorem findBody_some_lt (st : HostState) (h : Nat) (d : BodyData)
    (hw : ∀ p ∈ st.bodies, p.1 < st.nextId) (hf : st.findBody h = some d) :
    h < st.nextId := by
  unfold HostState.findBody at hf
  cases hfind : st.bodies.find? (fun p => p.1 == h) with
  | none =>
    rw [hfind] at hf
    simp at hf
  | some p =>
    have hp1 : p.1 = h := by simpa using List.find?_some hfind
    have hmem := List.mem_of_find?_eq_some hfind
    rw [← hp1]
    exact hw p hmem

/-- A successful `recreate_body` on a live voxel yields a strictly fresh
handle, deletes the old body, and keeps the shape tag. -/
theorem recreateBody_new_handle (st : HostState) (w : DirectVoxel) (h : Nat)
    (hw : ∀ p ∈ st.bodies, p.1 < st.nextId) (hb : w.body = some h)
    (hlt : h < st.nextId) (st' : HostState) (v' : DirectVoxel)
    (hm : Voxel.recreateBody st w = .ok (st', v')) :
    ∃ h', v'.body = some h' ∧ h' ≠ h ∧ st'.findBody h = none ∧
      v'.shape = w.shape := by
  rw [recreateBody_run st w h hb, Except.ok.injEq] at hm
  have hst : (rebuildAt st w h).1 = st' := congrArg Prod.fst hm
  have hv : (rebuildAt st w h).2 = v' := congrArg Prod.snd hm
  have hw' : ∀ p ∈ (st.removeBody h).bodies, p.1 ≠ (st.removeBody h).nextId :=
    fun p hp => Nat.ne_of_lt (hw p (List.mem_of_mem_filter hp))
  obtain ⟨hhandle, hsome, hothers⟩ :=
    createBodyWith_spec (st.removeBody h) { w with body := none }
      ({ w with body := none } : DirectVoxel).requestedGeometry hw'
  refine ⟨st.nextId, ?_, Nat.ne_of_gt hlt, ?_, ?_⟩
  · rw [← hv]
    show some (DirectVoxel.createBody (st.removeBody h) { w with body := none }).2
      = some st.nextId
    rw [createBody_eq, hhandle]
    rfl
  · rw [← hst]
    show (DirectVoxel.createBody (st.removeBody h)
      { w with body := none }).1.findBody h = none
    rw [createBody_eq, hothers h (Nat.ne_of_lt hlt),
      HostState.findBody_removeBody_self]
  · rw [← hv]
    rfl

/-- C6: assigning a different `center`, `side_length` or `component` to a
live voxel always produces a new body handle — the old body is deleted and
a fresh one is created via `recreate_body` — and the shape tag is unchanged
by the rebuild. -/
theorem C6_rebuild_new_handle (st : HostState) (v : DirectVoxel) (h : Nat)
    (d : BodyData) (hw : st.WF) (hb : v.body = some h)
    (hf : st.findBody h = some d) :
    (∀ (c : Point3) (st' : HostState) (v' : DirectVoxel), c ≠ v.center →
      DirectVoxel.setCenter st v c = .ok (st', v') →
      ∃ h', v'.body = some h' ∧ h' ≠ h ∧ st'.findBody h = none ∧
        v'.shapeString = v.shapeString) ∧
    (∀ (q : ℚ) (st' : HostState) (v' : DirectVoxel), q ≠ v.side_length →
      DirectVoxel.setSideLength st v q = .ok (st', v') →
      ∃ h', v'.body = some h' ∧ h' ≠ h ∧ st'.findBody h = none ∧
        v'.shapeString = v.shapeString) ∧
    (∀ (c : Component) (st' : HostState) (v' : DirectVoxel),
      c.id ≠ v.component.id →
      DirectVoxel.setComponent st v c = .ok (st', v') →
      ∃ h', v'.body = some h' ∧ h' ≠ h ∧ st'.findBody h = none ∧
        v'.shapeString = v.shapeString) := by
  have hlt : h < st.nextId := findBody_some_lt st h d hw.1 hf
  refine ⟨?_, ?_, ?_⟩
  · intro c st' v' hcne hm
    unfold DirectVoxel.setCenter at hm
    rw [if_pos (Ne.symm hcne)] at hm
    obtain ⟨h', h1, h2, h3, h4⟩ := recreateBody_new_handle st
      { v with center := c } h hw.1 hb hlt st' v' hm
    exact ⟨h', h1, h2, h3, congrArg Shape.toString h4⟩
  · intro q st' v' hqne hm
    unfold DirectVoxel.setSideLength at hm
    rw [if_pos hqne] at hm
    obtain ⟨h', h1, h2, h3, h4⟩ := recreateBody_new_handle st
      { v with side_length := q } h hw.1 hb hlt st' v' hm
    exact ⟨h', h1, h2, h3, congrArg Shape.toString h4⟩
  · intro c st' v' hcne hm
    unfold DirectVoxel.setComponent at hm
    rw [if_pos hcne] at hm
    obtain ⟨h', h1, h2, h3, h4⟩ := recreateBody_new_handle st
      { v with component := c } h hw.1 hb hlt st' v' hm
    exact ⟨h', h1, h2, h3, congrArg Shape.toString h4⟩

def sampleMovedBody : BodyData :=
  { componentId := "comp0",
    geometry := .box ((1 : ℚ), (1 : ℚ), (1 : ℚ)) ((1 : ℚ), (0 : ℚ), (0 : ℚ))
      ((0 : ℚ), (1 : ℚ), (0 : ℚ)) 2 2 2,
    appearance := .base "Prism-256", name := "Cube" }

def sampleMovedState : HostState :=
  { designType := .direct, bodies := [(1, sampleMovedBody)],
    appearances := [], nextId := 2 }

def sampleMovedVoxel : DirectVoxel :=
  { sampleVoxel with center := ((1 : ℚ), (1 : ℚ), (1 : ℚ)), body := some 1 }

def sampleResizedBody : BodyData :=
  { componentId := "comp0",
    geometry := .box ((0 : ℚ), (0 : ℚ), (0 : ℚ)) ((1 : ℚ), (0 : ℚ), (0 : ℚ))
      ((0 : ℚ), (1 : ℚ), (0 : ℚ)) 3 3 3,
    appearance := .base "Prism-256", name := "Cube" }

def sampleResizedState : HostState :=
  { designType := .direct, bodies := [(1, sampleResizedBody)],
    appearances := [], nextId := 2 }

def sampleResizedVoxel : DirectVoxel :=
  { sampleVoxel with side_length := 3, body := some 1 }

def sampleRecompBody : BodyData :=
  { componentId := "comp1",
    geometry := .box ((0 : ℚ), (0 : ℚ), (0 : ℚ)) ((1 : ℚ), (0 : ℚ), (0 : ℚ))
      ((0 : ℚ), (1 : ℚ), (0 : ℚ)) 2 2 2,
    appearance := .base "Prism-256", name := "Cube" }

def sampleRecompState : HostState :=
  { designType := .direct, bodies := [(1, sampleRecompBody)],
    appearances := [], nextId := 2 }

def sampleRecompVoxel : DirectVoxel :=
  { sampleVoxel with component := sampleComponent2, body := some 1 }

theorem C6_rebuild_new_handle_witness :
    (∃ h', sampleMovedVoxel.body = some h' ∧ h' ≠ 0 ∧
      sampleMovedState.findBody 0 = none ∧
      sampleMovedVoxel.shapeString = sampleVoxel.shapeString) ∧
    (∃ h', sampleResizedVoxel.body = some h' ∧ h' ≠ 0 ∧
      sampleResizedState.findBody 0 = none ∧
      sampleResizedVoxel.shapeString = sampleVoxel.shapeString) ∧
    (∃ h', sampleRecompVoxel.body = some h' ∧ h' ≠ 0 ∧
      sampleRecompState.findBody 0 = none ∧
      sampleRecompVoxel.shapeString = sampleVoxel.shapeString) :=
  ⟨(C6_rebuild_new_handle sampleLiveState sampleVoxel 0 sampleBody (by decide)
      rfl rfl).1 ((1 : ℚ), (1 : ℚ), (1 : ℚ)) sampleMovedState sampleMovedVoxel
      (by decide) rfl,
   (C6_rebuild_new_handle sampleLiveState sampleVoxel 0 sampleBody (by decide)
      rfl rfl).2.1 3 sampleResizedState sampleResizedVoxel (by decide) rfl,
   (C6_rebuild_new_handle sampleLiveState sampleVoxel 0 sampleBody (by decide)
      rfl rfl).2.2 sampleComponent2 sampleRecompState sampleRecompVoxel
      (by decide) rfl⟩

/-- C10: the rebuilt body produced by `recreate_body` — which is what the
`center`, `side_length` and `component` setters run on an actual change —
carries the voxel's current display name and its resolved appearance (from
the stored appearance id and color); the name, color and appearance
attributes themselves are unchanged by the rebuild. -/
theorem C10_rebuild_carries_attributes (st : HostState) (v : DirectVoxel)
    (h : Nat) (hw : st.WF) (hb : v.body = some h) :
    (∀ (st' : HostState) (v' : DirectVoxel),
      Voxel.recreateBody st v = .ok (st', v') →
      v'.name = v.name ∧ v'.color = v.color ∧ v'.appearance = v.appearance ∧
      ∃ h' d', v'.body = some h' ∧ st'.findBody h' = some d' ∧
        d'.name = v.name ∧
        AppearanceRef.resolves st'.appearances d'.appearance v.appearance
          v.color) ∧
    (∀ c : Point3, v.center ≠ c →
      DirectVoxel.setCenter st v c =
        Voxel.recreateBody st { v with center := c }) ∧
    (∀ q : ℚ, q ≠ v.side_length →
      DirectVoxel.setSideLength st v q =
        Voxel.recreateBody st { v with side_length := q }) ∧
    (∀ c : Component, c.id ≠ v.component.id →
      DirectVoxel.setComponent st v c =
        Voxel.recreateBody st { v with component := c }) := by
  refine ⟨?_, ?_, ?_, ?_⟩
  · intro st' v' hm
    rw [recreateBody_run st v h hb, Except.ok.injEq] at hm
    have hst : (rebuildAt st v h).1 = st' := congrArg Prod.fst hm
    have hv : (rebuildAt st v h).2 = v' := congrArg Prod.snd hm
    have hw' : ∀ p ∈ (st.removeBody h).bodies,
        p.1 ≠ (st.removeBody h).nextId :=
      fun p hp => Nat.ne_of_lt (hw.1 p (List.mem_of_mem_filter hp))
    obtain ⟨hhandle, ⟨app, hfind, hres⟩, hothers⟩ :=
      createBodyWith_spec (st.removeBody h) { v with body := none }
        ({ v with body := none } : DirectVoxel).requestedGeometry hw'
    refine ⟨?_, ?_, ?_, st.nextId,
      ⟨({ v with body := none } : DirectVoxel).component.id,
        ({ v with body := none } : DirectVoxel).requestedGeometry, app,
        ({ v with body := none } : DirectVoxel).name⟩, ?_, ?_, rfl, ?_⟩
    · rw [← hv]
      rfl
    · rw [← hv]
      rfl
    · rw [← hv]
      rfl
    · rw [← hv]
      show some (DirectVoxel.createBody (st.removeBody h)
        { v with body := none }).2 = some st.nextId
      rw [createBody_eq, hhandle]
      rfl
    · rw [← hst]
      show (DirectVoxel.createBody (st.removeBody h)
        { v with body := none }).1.findBody st.nextId = _
      rw [createBody_eq]
      exact hfind
    · rw [← hst]
      show AppearanceRef.resolves (DirectVoxel.createBody (st.removeBody h)
        { v with body := none }).1.appearances app v.appearance v.color
      rw [createBody_eq]
      exact hres
  · intro c hcne
    unfold DirectVoxel.setCenter
    rw [if_pos hcne]
  · intro q hqne
    unfold DirectVoxel.setSideLength
    rw [if_pos hqne]
  · intro c hcne
    unfold DirectVoxel.setComponent
    rw [if_pos hcne]

def sampleRebuiltState : HostState :=
  { designType := .direct, bodies := [(1, sampleBody)], appearances := [],
    nextId := 2 }

def sampleRebuiltVoxel : DirectVoxel := { sampleVoxel with body := some 1 }

theorem C10_rebuild_carries_attributes_witness :
    (sampleRebuiltVoxel.name = sampleVoxel.name ∧
      sampleRebuiltVoxel.color = sampleVoxel.color ∧
      sampleRebuiltVoxel.appearance = sampleVoxel.appearance ∧
      ∃ h' d', sampleRebuiltVoxel.body = some h' ∧
        sampleRebuiltState.findBody h' = some d' ∧
        d'.name = sampleVoxel.name ∧
        AppearanceRef.resolves sampleRebuiltState.appearances d'.appearance
          sampleVoxel.appearance sampleVoxel.color) ∧
    DirectVoxel.setCenter sampleLiveState sampleVoxel
        ((1 : ℚ), (1 : ℚ), (1 : ℚ)) =
      Voxel.recreateBody sampleLiveState
        { sampleVoxel with center := ((1 : ℚ), (1 : ℚ), (1 : ℚ)) } ∧
    DirectVoxel.setSideLength sampleLiveState sampleVoxel 3 =
      Voxel.recreateBody sampleLiveState
        { sampleVoxel with side_length := 3 } ∧
    DirectVoxel.setComponent sampleLiveState sampleVoxel sampleComponent2 =
      Voxel.recreateBody sampleLiveState
        { sampleVoxel with component := sampleComponent2 } :=
  ⟨(C10_rebuild_carries_attributes sampleLiveState sampleVoxel 0 (by decide)
      rfl).1 sampleRebuiltState sampleRebuiltVoxel rfl,
   (C10_rebuild_carries_attributes sampleLiveState sampleVoxel 0 (by decide)
      rfl).2.1 ((1 : ℚ), (1 : ℚ), (1 : ℚ)) (by decide),
   (C10_rebuild_carries_attributes sampleLiveState sampleVoxel 0 (by decide)
      rfl).2.2.1 3 (by decide),
   (C10_rebuild_carries_attributes sampleLiveState sampleVoxel 0 (by decide)
      rfl).2.2.2 sampleComponent2 (by decide)⟩
